import Mathlib

set_option autoImplicit false

/-!
Verification of the follow lifecycle engine of
internal/processing/account/follow.go (GoToSocial).

The repository adapter, the relationship resolver and the outbound dispatch
queue are external collaborators of the engine; they are modelled here as an
explicit repository state (`DB`) threaded through the two operations, with
injectable error outcomes for each repository call so that the engine's
error-handling paths are reachable.  Dispatch hand-off is modelled as the
list of messages the run enqueues.  Go pointer-typed booleans (`*bool`)
become `Option Bool`, with `none` standing for a nil pointer.
-/

namespace GtsFollow

/-- An account, as the engine sees it: id, username, domain (empty means
local) and the `Locked` field, a Go `*bool` modelled as `Option Bool`
(`none` = nil pointer). -/
structure Account where
  id : String
  username : String
  domain : String
  locked : Option Bool
  deriving Repr, DecidableEq

/-- A pending follow request record (gtsmodel.FollowRequest), with the
fields the engine touches. `showReblogs` and `notify` are Go `*bool`. -/
structure FollowRequest where
  id : String
  accountID : String
  targetAccountID : String
  showReblogs : Option Bool
  uri : String
  notify : Option Bool
  deriving Repr, DecidableEq

/-- An accepted follow record (gtsmodel.Follow). -/
structure Follow where
  id : String
  accountID : String
  targetAccountID : String
  showReblogs : Option Bool
  uri : String
  notify : Option Bool
  deriving Repr, DecidableEq

/-- A directional block record between two accounts. -/
structure Block where
  accountID : String
  targetAccountID : String
  deriving Repr, DecidableEq

/-- The api form passed to FollowCreate: target account id plus optional
reblogs / notify overrides (Go `*bool` fields). -/
structure AccountFollowRequest where
  id : String
  reblogs : Option Bool
  notify : Option Bool
  deriving Repr, DecidableEq

/-- The kind of error an injected `Put` failure reports: a uniqueness /
duplicate-key violation, or any other repository failure. -/
inductive PutError
  | alreadyExists
  | other
  deriving Repr, DecidableEq

/-- The repository state plus, for each repository call the engine makes, an
injectable error outcome (all `false` / `none` = the call succeeds).  The
engine never reads the flags except through the corresponding call. -/
structure DB where
  accounts : List Account
  followRequests : List FollowRequest
  follows : List Follow
  blocks : List Block
  nextID : Nat
  isBlockedErr : Bool := false
  getAccountErr : Bool := false
  isFollowingErr : Bool := false
  isFollowRequestedErr : Bool := false
  newIDErr : Bool := false
  putErr : Option PutError := none
  acceptErr : Bool := false
  getWhereFrErr : Bool := false
  getWhereFErr : Bool := false
  deleteFrErr : Bool := false
  deleteFErr : Bool := false
  deriving Repr, DecidableEq

/-- Modelled from the spec: `IsBlocked(a, b, checkBothDirections=true)` is a
pure read answering whether a block record exists in either direction. -/
def isBlocked (db : DB) (a b : String) : Bool :=
  db.blocks.any fun k =>
    (k.accountID == a && k.targetAccountID == b) ||
    (k.accountID == b && k.targetAccountID == a)

/-- Modelled from the spec: `GetAccountByID(id)` returns the account record
with that id, or a no-entries outcome (`none`). -/
def getAccountByID (db : DB) (i : String) : Option Account :=
  db.accounts.find? fun a => a.id == i

/-- Modelled from the spec: `IsFollowing(a, b)` — does an accepted Follow
record exist for the ordered pair. -/
def isFollowing (db : DB) (a b : Account) : Bool :=
  db.follows.any fun f => f.accountID == a.id && f.targetAccountID == b.id

/-- Modelled from the spec: `IsFollowRequested(a, b)` — does a pending
FollowRequest record exist for the ordered pair. -/
def isFollowRequested (db : DB) (a b : Account) : Bool :=
  db.followRequests.any fun f => f.accountID == a.id && f.targetAccountID == b.id

/-- Modelled from the spec: `id.NewRandomULID()` — a fresh unique sortable
identifier, drawn here from the state's id supply. -/
def newULID (n : Nat) : String :=
  "01ULID" ++ toString n

/-- Modelled from the spec: `uris.GenerateURIForFollow(username, id)` — the
stable federation URI for a follow object. -/
def generateURIForFollow (username followID : String) : String :=
  "https://example.org/users/" ++ username ++ "/follow/" ++ followID

/-- `GetWhere` on follow requests with predicates
account_id = a, target_account_id = t. -/
def getFollowRequestWhere (db : DB) (a t : String) : Option FollowRequest :=
  db.followRequests.find? fun r => r.accountID == a && r.targetAccountID == t

/-- `GetWhere` on follows with predicates account_id = a,
target_account_id = t. -/
def getFollowWhere (db : DB) (a t : String) : Option Follow :=
  db.follows.find? fun r => r.accountID == a && r.targetAccountID == t

/-- `DeleteByID` on the follow-request store. -/
def deleteFollowRequestByID (db : DB) (i : String) : DB :=
  { db with followRequests := db.followRequests.filter fun r => !(r.id == i) }

/-- `DeleteByID` on the follow store. -/
def deleteFollowByID (db : DB) (i : String) : DB :=
  { db with follows := db.follows.filter fun r => !(r.id == i) }

/-- The Follow record a FollowRequest promotes to: same identity, URI and
flags. -/
def promotedFollow (fr : FollowRequest) : Follow :=
  { id := fr.id
    accountID := fr.accountID
    targetAccountID := fr.targetAccountID
    showReblogs := fr.showReblogs
    uri := fr.uri
    notify := fr.notify }

/-- Modelled from the spec: `AcceptFollowRequest(requesterID, targetID)`
atomically deletes the pending request and creates the corresponding Follow
record with the same identity and URI; a missing request is an error
(`none`). -/
def acceptFollowRequest (db : DB) (requesterID targetID : String) : Option DB :=
  match getFollowRequestWhere db requesterID targetID with
  | none => none
  | some fr =>
    some { deleteFollowRequestByID db fr.id with
           follows := db.follows ++ [promotedFollow fr] }

/-- The relationship snapshot returned to the caller. -/
structure Relationship where
  following : Bool
  requested : Bool
  blocking : Bool
  blockedBy : Bool
  deriving Repr, DecidableEq

/-- Modelled from the spec: the Relationship Resolver derives the snapshot
directly from repository predicate queries — read-only, idempotent, no side
effects. -/
def relationshipGet (db : DB) (req : Account) (targetID : String) : Relationship :=
  { following := (getFollowWhere db req.id targetID).isSome
    requested := (getFollowRequestWhere db req.id targetID).isSome
    blocking := db.blocks.any fun k =>
      k.accountID == req.id && k.targetAccountID == targetID
    blockedBy := db.blocks.any fun k =>
      k.accountID == targetID && k.targetAccountID == req.id }

/-- The GTSModel payload of a dispatch message: either the persisted
FollowRequest (create path) or a transient Follow-shaped record (undo
path). -/
inductive GTSModel
  | followRequest (fr : FollowRequest)
  | follow (f : Follow)
  deriving Repr, DecidableEq

/-- A message handed to the outbound dispatch queue
(messages.FromClientAPI).  `targetAccount` is a Go pointer that the remove
path may leave nil. -/
structure FromClientAPI where
  apObjectType : String
  apActivityType : String
  gtsModel : GTSModel
  originAccount : Account
  targetAccount : Option Account
  deriving Repr, DecidableEq

def activityFollow : String := "Follow"
def activityCreate : String := "Create"
def activityUndo : String := "Undo"

/-- The error taxonomy of gtserror codes this engine produces. -/
inductive ErrCode
  | internalError
  | notFound
  | notAcceptable
  deriving Repr, DecidableEq

/-- How a run ends: a relationship snapshot, a coded error, or a crash from
dereferencing a nil `Locked` pointer. -/
inductive Outcome
  | ok (rel : Relationship)
  | err (e : ErrCode)
  | nilDeref
  deriving Repr, DecidableEq

/-- The observable result of one operation: its outcome, the repository
state it leaves behind, and the dispatch messages it enqueued. -/
structure RunResult where
  outcome : Outcome
  db : DB
  msgs : List FromClientAPI
  deriving Repr, DecidableEq

/-- The FollowRequest record FollowCreate builds (lines 80-95): fresh id,
generated URI, show-reblogs defaulting to true and notify to false, each
overridden by the form's pointer field when non-nil. -/
def builtFR (db : DB) (requestingAccount : Account)
    (form : AccountFollowRequest) : FollowRequest :=
  { id := newULID db.nextID
    accountID := requestingAccount.id
    targetAccountID := form.id
    showReblogs := match form.reblogs with
      | some v => some v
      | none => some true
    uri := generateURIForFollow requestingAccount.username (newULID db.nextID)
    notify := match form.notify with
      | some v => some v
      | none => some false }

/-- The repository state after `Put` appends the new FollowRequest (the id
supply advances with the consumed ULID). -/
def dbAfterPut (db : DB) (fr : FollowRequest) : DB :=
  { db with
    followRequests := db.followRequests ++ [fr]
    nextID := db.nextID + 1 }

/-- `FollowCreate` translated from
internal/processing/account/follow.go lines 36-122. -/
def FollowCreate (db : DB) (requestingAccount : Account)
    (form : AccountFollowRequest) : RunResult :=
  if db.isBlockedErr then ⟨.err .internalError, db, []⟩
  else if isBlocked db requestingAccount.id form.id then ⟨.err .notFound, db, []⟩
  else if db.getAccountErr then ⟨.err .internalError, db, []⟩
  else
    match getAccountByID db form.id with
    | none => ⟨.err .notFound, db, []⟩
    | some targetAcct =>
      if db.isFollowingErr then ⟨.err .internalError, db, []⟩
      else if isFollowing db requestingAccount targetAcct then
        ⟨.ok (relationshipGet db requestingAccount form.id), db, []⟩
      else if db.isFollowRequestedErr then ⟨.err .internalError, db, []⟩
      else if isFollowRequested db requestingAccount targetAcct then
        ⟨.ok (relationshipGet db requestingAccount form.id), db, []⟩
      else if requestingAccount.id == targetAcct.id then
        ⟨.err .notAcceptable, db, []⟩
      else if db.newIDErr then ⟨.err .internalError, db, []⟩
      else
        let fr : FollowRequest := builtFR db requestingAccount form
        if db.putErr.isSome then ⟨.err .internalError, db, []⟩
        else
          let db1 : DB := dbAfterPut db fr
          match targetAcct.locked with
          | none => ⟨.nilDeref, db1, []⟩
          | some locked =>
            if !locked && targetAcct.domain == "" then
              if db1.acceptErr then ⟨.err .internalError, db1, []⟩
              else
                match acceptFollowRequest db1 requestingAccount.id form.id with
                | none => ⟨.err .internalError, db1, []⟩
                | some db2 =>
                  ⟨.ok (relationshipGet db2 requestingAccount form.id), db2, []⟩
            else
              let msg : FromClientAPI :=
                { apObjectType := activityFollow
                  apActivityType := activityCreate
                  gtsModel := .followRequest fr
                  originAccount := requestingAccount
                  targetAccount := some targetAcct }
              ⟨.ok (relationshipGet db1 requestingAccount form.id), db1, [msg]⟩

/-- The transient Follow-shaped undo payload built by FollowRemove (Go zero
values: empty id, nil reblogs/notify pointers), wrapped into the dispatch
message. -/
def undoMsg (requestingAccount : Account) (targetAccountID uri : String)
    (targetAcct : Option Account) : FromClientAPI :=
  { apObjectType := activityFollow
    apActivityType := activityUndo
    gtsModel := .follow
      { id := ""
        accountID := requestingAccount.id
        targetAccountID := targetAccountID
        showReblogs := none
        uri := uri
        notify := none }
    originAccount := requestingAccount
    targetAccount := targetAcct }

/-- The tail of FollowRemove after both deletion branches: enqueue one undo
message per branch that fired, then return the snapshot (lines 173-204). -/
def followRemoveMsgs (db : DB) (requestingAccount : Account)
    (targetAccountID : String) (targetAcct : Option Account)
    (frChanged : Bool) (frURI : String) (fChanged : Bool) (fURI : String) :
    RunResult :=
  let msgs :=
    (if frChanged then [undoMsg requestingAccount targetAccountID frURI targetAcct] else []) ++
    (if fChanged then [undoMsg requestingAccount targetAccountID fURI targetAcct] else [])
  ⟨.ok (relationshipGet db requestingAccount targetAccountID), db, msgs⟩

/-- The follow-deletion branch of FollowRemove (lines 158-171): the branch
fires only when the GetWhere lookup returns without error. -/
def followRemoveFollowBranch (db : DB) (requestingAccount : Account)
    (targetAccountID : String) (targetAcct : Option Account)
    (frChanged : Bool) (frURI : String) : RunResult :=
  match
    (if db.getWhereFErr then none
     else getFollowWhere db requestingAccount.id targetAccountID) with
  | some f =>
    if db.deleteFErr then ⟨.err .internalError, db, []⟩
    else
      followRemoveMsgs (deleteFollowByID db f.id) requestingAccount
        targetAccountID targetAcct frChanged frURI true f.uri
  | none =>
    followRemoveMsgs db requestingAccount targetAccountID targetAcct
      frChanged frURI false ""

/-- `FollowRemove` translated from
internal/processing/account/follow.go lines 125-205.  Note the source's
account-resolution step: a no-entries lookup returns NotFound, while any
other lookup error falls through with a nil target reference. -/
def FollowRemove (db : DB) (requestingAccount : Account)
    (targetAccountID : String) : RunResult :=
  if db.isBlockedErr then ⟨.err .internalError, db, []⟩
  else if isBlocked db requestingAccount.id targetAccountID then
    ⟨.err .notFound, db, []⟩
  else
    match
      (if db.getAccountErr then some none
       else match getAccountByID db targetAccountID with
         | none => none
         | some a => some (some a)) with
    | none => ⟨.err .notFound, db, []⟩
    | some targetAcct =>
      match
        (if db.getWhereFrErr then none
         else getFollowRequestWhere db requestingAccount.id targetAccountID) with
      | some fr =>
        if db.deleteFrErr then ⟨.err .internalError, db, []⟩
        else
          followRemoveFollowBranch (deleteFollowRequestByID db fr.id)
            requestingAccount targetAccountID targetAcct true fr.uri
      | none =>
        followRemoveFollowBranch db requestingAccount targetAccountID
          targetAcct false ""

/-- Number of FollowRequest records for the ordered pair (a, t). -/
def frCount (db : DB) (a t : String) : Nat :=
  (db.followRequests.filter fun r => r.accountID == a && r.targetAccountID == t).length

/-- Number of Follow records for the ordered pair (a, t). -/
def fCount (db : DB) (a t : String) : Nat :=
  (db.follows.filter fun r => r.accountID == a && r.targetAccountID == t).length

/-- All injectable repository error outcomes are off: every repository call
the engine makes succeeds. -/
def faultFree (db : DB) : Bool :=
  !db.isBlockedErr && !db.getAccountErr && !db.isFollowingErr &&
  !db.isFollowRequestedErr && !db.newIDErr && db.putErr.isNone &&
  !db.acceptErr && !db.getWhereFrErr && !db.getWhereFErr &&
  !db.deleteFrErr && !db.deleteFErr

/-- The repository state after the auto-accept of the FollowRequest that
FollowCreate just persisted: the request is deleted again and the promoted
Follow is appended. -/
def dbAfterAutoAccept (db : DB) (A : Account) (form : AccountFollowRequest) : DB :=
  { deleteFollowRequestByID (dbAfterPut db (builtFR db A form))
      (builtFR db A form).id with
    follows := db.follows ++ [promotedFollow (builtFR db A form)] }

/-- The dispatch message the manual-accept path of FollowCreate enqueues. -/
def createMsg (db : DB) (A : Account) (form : AccountFollowRequest)
    (t : Account) : FromClientAPI :=
  { apObjectType := activityFollow
    apActivityType := activityCreate
    gtsModel := .followRequest (builtFR db A form)
    originAccount := A
    targetAccount := some t }

/-! ### Concrete fixtures used by witnesses and counterexamples -/

def acctA : Account :=
  { id := "A", username := "alice", domain := "", locked := some false }

def acctB : Account :=
  { id := "B", username := "bob", domain := "", locked := some false }

def acctBremote : Account :=
  { id := "B", username := "bob", domain := "remote.example", locked := some true }

def acctBnilLocked : Account :=
  { id := "B", username := "bob", domain := "", locked := none }

def formB : AccountFollowRequest := { id := "B", reblogs := none, notify := none }

def formA : AccountFollowRequest := { id := "A", reblogs := none, notify := none }

/-- Baseline repository: both accounts present, no relationship records. -/
def dbBase : DB :=
  { accounts := [acctA, acctB]
    followRequests := []
    follows := []
    blocks := []
    nextID := 7 }

/-- The empty repository. -/
def dbEmpty : DB :=
  { accounts := [], followRequests := [], follows := [], blocks := [], nextID := 0 }

def dbBlocked : DB :=
  { dbBase with blocks := [{ accountID := "B", targetAccountID := "A" }] }

/-- Put failure injected as a duplicate-key violation. -/
def dbPutDup : DB := { dbBase with putErr := some PutError.alreadyExists }

/-- Baseline with the remote locked target account. -/
def dbRemote : DB := { dbBase with accounts := [acctA, acctBremote] }

/-- The repository state after the follow-request branch of FollowRemove:
the pending request for the pair, when one exists, is deleted. -/
def dbRemove1 (db : DB) (A : Account) (tid : String) : DB :=
  match getFollowRequestWhere db A.id tid with
  | some fr => deleteFollowRequestByID db fr.id
  | none => db

/-- The repository state after both deletion branches of FollowRemove. -/
def dbRemove2 (db : DB) (A : Account) (tid : String) : DB :=
  match getFollowWhere db A.id tid with
  | some f => deleteFollowByID (dbRemove1 db A tid) f.id
  | none => dbRemove1 db A tid

/-- The undo messages a fault-free FollowRemove run enqueues: one per record
that existed for the pair, carrying that record's URI. -/
def undoList (db : DB) (A : Account) (tid : String)
    (tAcct : Option Account) : List FromClientAPI :=
  (match getFollowRequestWhere db A.id tid with
   | some fr => [undoMsg A tid fr.uri tAcct]
   | none => []) ++
  (match getFollowWhere db A.id tid with
   | some f => [undoMsg A tid f.uri tAcct]
   | none => [])

/-! ### Remove-path fixtures -/

/-- A pending follow request from A to B. -/
def frAB : FollowRequest :=
  { id := "FR1"
    accountID := "A"
    targetAccountID := "B"
    showReblogs := some true
    uri := "https://example.org/users/alice/follow/FR1"
    notify := some false }

/-- An accepted follow from A to B. -/
def fAB : Follow :=
  { id := "F1"
    accountID := "A"
    targetAccountID := "B"
    showReblogs := some true
    uri := "https://example.org/users/alice/follow/F1"
    notify := some false }

/-- Target account B deleted from the store while A's request lingers. -/
def dbC2 : DB :=
  { accounts := [acctA]
    followRequests := [frAB]
    follows := []
    blocks := []
    nextID := 0 }

/-- Same, with the account lookup failing with a non-no-entries error. -/
def dbC2err : DB := { dbC2 with getAccountErr := true }

/-- A pending request present but its GetWhere lookup failing. -/
def dbC9 : DB := { dbBase with followRequests := [frAB], getWhereFrErr := true }

/-- A follow present but its GetWhere lookup failing. -/
def dbC9b : DB := { dbBase with follows := [fAB], getWhereFErr := true }

/-- A pending request present and its deletion failing. -/
def dbC9c : DB := { dbBase with followRequests := [frAB], deleteFrErr := true }

/-- Both a pending request and a follow present for the pair. -/
def dbBoth : DB := { dbBase with followRequests := [frAB], follows := [fAB] }

/-! ### Helper lemmas -/

theorem deleteFr_getWhereFErr (db : DB) (i : String) :
    (deleteFollowRequestByID db i).getWhereFErr = db.getWhereFErr := rfl

theorem deleteFr_deleteFErr (db : DB) (i : String) :
    (deleteFollowRequestByID db i).deleteFErr = db.deleteFErr := rfl

theorem faultFree_iff {db : DB} : faultFree db = true ↔
    db.isBlockedErr = false ∧ db.getAccountErr = false ∧
    db.isFollowingErr = false ∧ db.isFollowRequestedErr = false ∧
    db.newIDErr = false ∧ db.putErr = none ∧ db.acceptErr = false ∧
    db.getWhereFrErr = false ∧ db.getWhereFErr = false ∧
    db.deleteFrErr = false ∧ db.deleteFErr = false := by
  simp [faultFree, Option.isNone_iff_eq_none, and_assoc]

theorem getAccountByID_id {db : DB} {i : String} {a : Account}
    (h : getAccountByID db i = some a) : a.id = i := by
  unfold getAccountByID at h
  simpa using List.find?_some h

theorem frCount_zero_iff {db : DB} {a t : String} :
    frCount db a t = 0 ↔
    ∀ r ∈ db.followRequests,
      ¬(r.accountID == a && r.targetAccountID == t) = true := by
  rw [frCount, List.length_eq_zero, List.filter_eq_nil_iff]

theorem fCount_zero_iff {db : DB} {a t : String} :
    fCount db a t = 0 ↔
    ∀ r ∈ db.follows,
      ¬(r.accountID == a && r.targetAccountID == t) = true := by
  rw [fCount, List.length_eq_zero, List.filter_eq_nil_iff]

theorem isFollowing_eq_false {db : DB} {a b : Account}
    (h : fCount db a.id b.id = 0) : isFollowing db a b = false := by
  rw [isFollowing, List.any_eq_false]
  exact fCount_zero_iff.mp h

theorem isFollowRequested_eq_false {db : DB} {a b : Account}
    (h : frCount db a.id b.id = 0) : isFollowRequested db a b = false := by
  rw [isFollowRequested, List.any_eq_false]
  exact frCount_zero_iff.mp h

theorem getFollowWhere_eq_none {db : DB} {a t : String}
    (h : fCount db a t = 0) : getFollowWhere db a t = none := by
  rw [getFollowWhere, List.find?_eq_none]
  exact fCount_zero_iff.mp h

theorem getFollowRequestWhere_eq_none {db : DB} {a t : String}
    (h : frCount db a t = 0) : getFollowRequestWhere db a t = none := by
  rw [getFollowRequestWhere, List.find?_eq_none]
  exact frCount_zero_iff.mp h

/-- Deleting a follow request leaves the follow store untouched. -/
theorem getFollowWhere_deleteFr (db : DB) (i : String) (a t : String) :
    getFollowWhere (deleteFollowRequestByID db i) a t = getFollowWhere db a t := rfl

theorem builtFR_accountID (db : DB) (A : Account) (form : AccountFollowRequest) :
    (builtFR db A form).accountID = A.id := rfl

theorem builtFR_targetAccountID (db : DB) (A : Account)
    (form : AccountFollowRequest) :
    (builtFR db A form).targetAccountID = form.id := rfl

theorem fCount_afterPut (db : DB) (fr : FollowRequest) (a t : String) :
    fCount (dbAfterPut db fr) a t = fCount db a t := rfl

theorem getFollowWhere_afterPut (db : DB) (fr : FollowRequest) (a t : String) :
    getFollowWhere (dbAfterPut db fr) a t = getFollowWhere db a t := rfl

theorem frCount_afterPut (db : DB) (A : Account) (form : AccountFollowRequest)
    (h : frCount db A.id form.id = 0) :
    frCount (dbAfterPut db (builtFR db A form)) A.id form.id = 1 := by
  unfold frCount at h ⊢
  have h0 := List.length_eq_zero.mp h
  show (List.filter _ (db.followRequests ++ [builtFR db A form])).length = 1
  rw [List.filter_append, h0]
  simp [builtFR]

theorem getFollowRequestWhere_afterPut (db : DB) (A : Account)
    (form : AccountFollowRequest) (h : frCount db A.id form.id = 0) :
    getFollowRequestWhere (dbAfterPut db (builtFR db A form)) A.id form.id =
      some (builtFR db A form) := by
  have h0 : getFollowRequestWhere db A.id form.id = none :=
    getFollowRequestWhere_eq_none h
  unfold getFollowRequestWhere at h0 ⊢
  show (db.followRequests ++ [builtFR db A form]).find? _ = _
  rw [List.find?_append, h0]
  simp [builtFR]

theorem isFollowRequested_afterPut (db : DB) (A t : Account)
    (form : AccountFollowRequest) (htid : t.id = form.id) :
    isFollowRequested (dbAfterPut db (builtFR db A form)) A t = true := by
  rw [isFollowRequested, List.any_eq_true]
  refine ⟨builtFR db A form, ?_, ?_⟩
  · exact List.mem_append.mpr (Or.inr (List.mem_singleton.mpr rfl))
  · simp [builtFR, htid]

theorem acceptFollowRequest_afterPut (db : DB) (A : Account)
    (form : AccountFollowRequest) (h : frCount db A.id form.id = 0) :
    acceptFollowRequest (dbAfterPut db (builtFR db A form)) A.id form.id =
      some (dbAfterAutoAccept db A form) := by
  rw [acceptFollowRequest, getFollowRequestWhere_afterPut db A form h]
  rfl

/-- If every element of the list satisfying `p` fails `q`, the double filter
is empty. -/
theorem length_filter_filter_eq_zero {α : Type} (p q : α → Bool) (l : List α)
    (h : ∀ a ∈ l, p a = true → q a = false) :
    (List.filter p (List.filter q l)).length = 0 := by
  rw [List.filter_filter, List.length_eq_zero, List.filter_eq_nil_iff]
  intro a ha
  simp only [Bool.and_eq_true, not_and]
  intro hp hq
  rw [h a ha hp] at hq
  exact Bool.false_ne_true hq

theorem frCount_afterAutoAccept (db : DB) (A : Account)
    (form : AccountFollowRequest) (h : frCount db A.id form.id = 0) :
    frCount (dbAfterAutoAccept db A form) A.id form.id = 0 := by
  have h0 := frCount_zero_iff.mp h
  unfold frCount dbAfterAutoAccept deleteFollowRequestByID
  refine length_filter_filter_eq_zero _ _ _ ?_
  intro a ha hp
  rcases List.mem_append.mp ha with h1 | h1
  · exact absurd hp (h0 a h1)
  · rw [List.mem_singleton.mp h1]
    simp

theorem fCount_afterAutoAccept (db : DB) (A : Account)
    (form : AccountFollowRequest) (h : fCount db A.id form.id = 0) :
    fCount (dbAfterAutoAccept db A form) A.id form.id = 1 := by
  unfold fCount at h ⊢
  have h0 := List.length_eq_zero.mp h
  show (List.filter _ (db.follows ++ [promotedFollow (builtFR db A form)])).length = 1
  rw [List.filter_append, h0]
  simp [promotedFollow, builtFR]

theorem getFollowWhere_afterAutoAccept (db : DB) (A : Account)
    (form : AccountFollowRequest) (h : fCount db A.id form.id = 0) :
    getFollowWhere (dbAfterAutoAccept db A form) A.id form.id =
      some (promotedFollow (builtFR db A form)) := by
  have h0 : getFollowWhere db A.id form.id = none := getFollowWhere_eq_none h
  unfold getFollowWhere at h0 ⊢
  show (db.follows ++ [promotedFollow (builtFR db A form)]).find? _ = _
  rw [List.find?_append, h0]
  simp [promotedFollow, builtFR]

theorem getFollowRequestWhere_afterAutoAccept (db : DB) (A : Account)
    (form : AccountFollowRequest) (h : frCount db A.id form.id = 0) :
    getFollowRequestWhere (dbAfterAutoAccept db A form) A.id form.id = none := by
  have h0 := frCount_zero_iff.mp h
  unfold getFollowRequestWhere dbAfterAutoAccept deleteFollowRequestByID
  rw [List.find?_eq_none]
  intro a ha
  have hmem := List.mem_of_mem_filter ha
  have hkeep := List.of_mem_filter ha
  rcases List.mem_append.mp hmem with h1 | h1
  · exact h0 a h1
  · rw [List.mem_singleton.mp h1] at hkeep
    simp at hkeep

theorem isFollowing_afterAutoAccept (db : DB) (A t : Account)
    (form : AccountFollowRequest) (htid : t.id = form.id) :
    isFollowing (dbAfterAutoAccept db A form) A t = true := by
  rw [isFollowing, List.any_eq_true]
  refine ⟨promotedFollow (builtFR db A form), ?_, ?_⟩
  · exact List.mem_append.mpr (Or.inr (List.mem_singleton.mpr rfl))
  · simp [promotedFollow, builtFR, htid]

/-- Shared reduction: the manual-accept run of FollowCreate (remote target,
or local locked target). -/
theorem followCreate_manual_run (db : DB) (A t : Account)
    (form : AccountFollowRequest) (b : Bool)
    (hacct : getAccountByID db form.id = some t)
    (hne : A.id ≠ form.id)
    (hlock : t.locked = some b)
    (hcond : (!b && (t.domain == "")) = false)
    (hnb : isBlocked db A.id form.id = false)
    (hfr0 : frCount db A.id form.id = 0)
    (hf0 : fCount db A.id form.id = 0)
    (hff : faultFree db = true) :
    FollowCreate db A form =
      ⟨.ok (relationshipGet (dbAfterPut db (builtFR db A form)) A form.id),
       dbAfterPut db (builtFR db A form), [createMsg db A form t]⟩ := by
  obtain ⟨h1, h2, h3, h4, h5, h6, -⟩ := faultFree_iff.mp hff
  have htid : t.id = form.id := getAccountByID_id hacct
  have hf0t : fCount db A.id t.id = 0 := by rw [htid]; exact hf0
  have hfr0t : frCount db A.id t.id = 0 := by rw [htid]; exact hfr0
  have hneq : (A.id == t.id) = false := by
    rw [htid]; exact beq_eq_false_iff_ne.mpr hne
  rw [FollowCreate]
  simp [h1, h2, h3, h4, h5, h6, hnb, hacct, isFollowing_eq_false hf0t,
    isFollowRequested_eq_false hfr0t, hneq, hlock, hcond, createMsg]

/-- Shared reduction: the auto-accept run of FollowCreate (local unlocked
target). -/
theorem followCreate_auto_run (db : DB) (A t : Account)
    (form : AccountFollowRequest)
    (hacct : getAccountByID db form.id = some t)
    (hne : A.id ≠ form.id)
    (hdom : t.domain = "")
    (hlock : t.locked = some false)
    (hnb : isBlocked db A.id form.id = false)
    (hfr0 : frCount db A.id form.id = 0)
    (hf0 : fCount db A.id form.id = 0)
    (hff : faultFree db = true) :
    FollowCreate db A form =
      ⟨.ok (relationshipGet (dbAfterAutoAccept db A form) A form.id),
       dbAfterAutoAccept db A form, []⟩ := by
  obtain ⟨h1, h2, h3, h4, h5, h6, h7, -⟩ := faultFree_iff.mp hff
  have htid : t.id = form.id := getAccountByID_id hacct
  have hf0t : fCount db A.id t.id = 0 := by rw [htid]; exact hf0
  have hfr0t : frCount db A.id t.id = 0 := by rw [htid]; exact hfr0
  have hneq : (A.id == t.id) = false := by
    rw [htid]; exact beq_eq_false_iff_ne.mpr hne
  have h7p : (dbAfterPut db (builtFR db A form)).acceptErr = false := h7
  rw [FollowCreate]
  simp [h1, h2, h3, h4, h5, h6, h7p, hnb, hacct, isFollowing_eq_false hf0t,
    isFollowRequested_eq_false hfr0t, hneq, hlock, hdom,
    acceptFollowRequest_afterPut db A form hfr0]

/-- Shared reduction: FollowCreate short-circuits on an existing follow. -/
theorem followCreate_short_following (db : DB) (A t : Account)
    (form : AccountFollowRequest)
    (h1 : db.isBlockedErr = false) (h2 : db.getAccountErr = false)
    (h3 : db.isFollowingErr = false)
    (hnb : isBlocked db A.id form.id = false)
    (hacct : getAccountByID db form.id = some t)
    (hfol : isFollowing db A t = true) :
    FollowCreate db A form =
      ⟨.ok (relationshipGet db A form.id), db, []⟩ := by
  rw [FollowCreate]
  simp [h1, h2, h3, hnb, hacct, hfol]

/-- Shared reduction: FollowCreate short-circuits on an existing follow
request. -/
theorem followCreate_short_requested (db : DB) (A t : Account)
    (form : AccountFollowRequest)
    (h1 : db.isBlockedErr = false) (h2 : db.getAccountErr = false)
    (h3 : db.isFollowingErr = false) (h4 : db.isFollowRequestedErr = false)
    (hnb : isBlocked db A.id form.id = false)
    (hacct : getAccountByID db form.id = some t)
    (hfol : isFollowing db A t = false)
    (hreq : isFollowRequested db A t = true) :
    FollowCreate db A form =
      ⟨.ok (relationshipGet db A form.id), db, []⟩ := by
  rw [FollowCreate]
  simp [h1, h2, h3, h4, hnb, hacct, hfol, hreq]

/-! ### Claim theorems -/

/-- C7: with a block in either direction between the accounts, both
FollowCreate and FollowRemove fail with NotFound — not a forbidden-style
error — leave the repository unchanged, and enqueue nothing. -/
theorem blocked_pair_notFound (db : DB) (A : Account)
    (form : AccountFollowRequest)
    (hblk : db.isBlockedErr = false)
    (hb : isBlocked db A.id form.id = true) :
    FollowCreate db A form = ⟨.err .notFound, db, []⟩ ∧
    FollowRemove db A form.id = ⟨.err .notFound, db, []⟩ := by
  constructor
  · rw [FollowCreate]
    simp [hblk, hb]
  · rw [FollowRemove]
    simp [hblk, hb]

theorem blocked_pair_notFound_witness :
    FollowCreate dbBlocked acctA formB = ⟨.err .notFound, dbBlocked, []⟩ ∧
    FollowRemove dbBlocked acctA "B" = ⟨.err .notFound, dbBlocked, []⟩ :=
  blocked_pair_notFound dbBlocked acctA formB rfl (by decide)

/-- C10: when the stored target account carries a nil Locked pointer,
FollowCreate crashes on the auto-accept test after the FollowRequest has
been persisted: the run ends in the nil-dereference outcome with the
request in the store, no dispatch message and no snapshot. -/
theorem followCreate_nilLocked_crash :
    (FollowCreate { dbBase with accounts := [acctA, acctBnilLocked] } acctA
        formB).outcome = .nilDeref ∧
    frCount (FollowCreate { dbBase with accounts := [acctA, acctBnilLocked] }
        acctA formB).db "A" "B" = 1 ∧
    (FollowCreate { dbBase with accounts := [acctA, acctBnilLocked] } acctA
        formB).msgs = [] := by
  decide

/-- C1 fails as stated: it quantifies over every prior repository state, but
from the empty repository FollowCreate(A,A) returns NotFound (the target
account lookup misses), not NotAcceptable. -/
theorem selfFollow_asStated_cex :
    (FollowCreate dbEmpty acctA formA).outcome = .err .notFound ∧
    (FollowCreate dbEmpty acctA formA).outcome ≠ .err .notAcceptable := by
  decide

/-- C1 (amended): provided the repository reports no errors, no block is
recorded on the pair, A's account is present, and no Follow or
FollowRequest record (A, A) exists, FollowCreate(A, A) fails with
NotAcceptable, creates no record and enqueues no dispatch message. -/
theorem selfFollow_notAcceptable (db : DB) (A t : Account)
    (form : AccountFollowRequest)
    (hform : form.id = A.id)
    (hacct : getAccountByID db form.id = some t)
    (hnb : isBlocked db A.id form.id = false)
    (hfr0 : frCount db A.id A.id = 0)
    (hf0 : fCount db A.id A.id = 0)
    (hff : faultFree db = true) :
    FollowCreate db A form = ⟨.err .notAcceptable, db, []⟩ := by
  obtain ⟨h1, h2, h3, h4, -⟩ := faultFree_iff.mp hff
  have htid : t.id = A.id := hform ▸ getAccountByID_id hacct
  have hf0t : fCount db A.id t.id = 0 := by rw [htid]; exact hf0
  have hfr0t : frCount db A.id t.id = 0 := by rw [htid]; exact hfr0
  rw [FollowCreate]
  simp [h1, h2, h3, h4, hnb, hacct, isFollowing_eq_false hf0t,
    isFollowRequested_eq_false hfr0t, htid]

theorem selfFollow_notAcceptable_witness :
    FollowCreate dbBase acctA formA = ⟨.err .notAcceptable, dbBase, []⟩ :=
  selfFollow_notAcceptable dbBase acctA acctA formA rfl (by decide) (by decide)
    (by decide) (by decide) (by decide)

/-- C3 fails as stated: with the Put call failing on a uniqueness
constraint, FollowCreate returns an Internal error instead of the current
relationship snapshot. -/
theorem putDuplicate_asStated_cex :
    (FollowCreate dbPutDup acctA formB).outcome = .err .internalError ∧
    (FollowCreate dbPutDup acctA formB).outcome ≠
      .ok (relationshipGet dbPutDup acctA "B") := by
  decide

/-- C3 (amended): every Put failure — a duplicate-key violation included —
makes FollowCreate return an Internal error, leaving the repository
unchanged and enqueueing nothing; the engine does not map
constraint-violation errors back onto the already-exists snapshot path. -/
theorem followCreate_putError_internal (db : DB) (A t : Account)
    (form : AccountFollowRequest) (e : PutError)
    (hacct : getAccountByID db form.id = some t)
    (hne : A.id ≠ form.id)
    (hnb : isBlocked db A.id form.id = false)
    (hfr0 : frCount db A.id form.id = 0)
    (hf0 : fCount db A.id form.id = 0)
    (hblk : db.isBlockedErr = false)
    (hga : db.getAccountErr = false)
    (hif : db.isFollowingErr = false)
    (hifr : db.isFollowRequestedErr = false)
    (hnid : db.newIDErr = false)
    (hput : db.putErr = some e) :
    FollowCreate db A form = ⟨.err .internalError, db, []⟩ := by
  have htid : t.id = form.id := getAccountByID_id hacct
  have hf0t : fCount db A.id t.id = 0 := by rw [htid]; exact hf0
  have hfr0t : frCount db A.id t.id = 0 := by rw [htid]; exact hfr0
  have hneq : (A.id == t.id) = false := by
    rw [htid]
    exact beq_eq_false_iff_ne.mpr hne
  rw [FollowCreate]
  simp [hblk, hga, hif, hifr, hnid, hnb, hacct, isFollowing_eq_false hf0t,
    isFollowRequested_eq_false hfr0t, hneq, hput]

theorem followCreate_putError_internal_witness :
    FollowCreate dbPutDup acctA formB = ⟨.err .internalError, dbPutDup, []⟩ :=
  followCreate_putError_internal dbPutDup acctA acctB formB
    PutError.alreadyExists (by decide) (by decide) (by decide) (by decide)
    (by decide) rfl rfl rfl rfl rfl rfl

/-- C5: for a distinct unblocked pair whose target account is local (empty
domain) and not locked, FollowCreate ends with zero FollowRequest records
and exactly one Follow record for the pair, enqueues no dispatch message,
and returns a snapshot with following = true. -/
theorem followCreate_autoAccept (db : DB) (A t : Account)
    (form : AccountFollowRequest)
    (hacct : getAccountByID db form.id = some t)
    (hne : A.id ≠ form.id)
    (hdom : t.domain = "")
    (hlock : t.locked = some false)
    (hnb : isBlocked db A.id form.id = false)
    (hfr0 : frCount db A.id form.id = 0)
    (hf0 : fCount db A.id form.id = 0)
    (hff : faultFree db = true) :
    FollowCreate db A form =
      ⟨.ok (relationshipGet (dbAfterAutoAccept db A form) A form.id),
       dbAfterAutoAccept db A form, []⟩ ∧
    frCount (dbAfterAutoAccept db A form) A.id form.id = 0 ∧
    fCount (dbAfterAutoAccept db A form) A.id form.id = 1 ∧
    (relationshipGet (dbAfterAutoAccept db A form) A form.id).following = true := by
  refine ⟨followCreate_auto_run db A t form hacct hne hdom hlock hnb hfr0 hf0 hff,
    frCount_afterAutoAccept db A form hfr0,
    fCount_afterAutoAccept db A form hf0, ?_⟩
  simp [relationshipGet, getFollowWhere_afterAutoAccept db A form hf0]

theorem followCreate_autoAccept_witness :
    FollowCreate dbBase acctA formB =
      ⟨.ok (relationshipGet (dbAfterAutoAccept dbBase acctA formB) acctA "B"),
       dbAfterAutoAccept dbBase acctA formB, []⟩ ∧
    frCount (dbAfterAutoAccept dbBase acctA formB) "A" "B" = 0 ∧
    fCount (dbAfterAutoAccept dbBase acctA formB) "A" "B" = 1 ∧
    (relationshipGet (dbAfterAutoAccept dbBase acctA formB) acctA "B").following
      = true := by
  exact followCreate_autoAccept dbBase acctA acctB formB (by decide) (by decide)
    rfl rfl (by decide) (by decide) (by decide) (by decide)

/-- C6: for a distinct unblocked pair whose target is remote, or local and
locked, FollowCreate ends with exactly one FollowRequest and zero Follow
records for the pair, enqueues exactly one dispatch message with
activity-type Create / object-type Follow carrying the persisted
FollowRequest, and returns a snapshot with requested = true and
following = false. -/
theorem followCreate_manualAccept (db : DB) (A t : Account)
    (form : AccountFollowRequest) (b : Bool)
    (hacct : getAccountByID db form.id = some t)
    (hne : A.id ≠ form.id)
    (hlock : t.locked = some b)
    (hmanual : t.domain ≠ "" ∨ b = true)
    (hnb : isBlocked db A.id form.id = false)
    (hfr0 : frCount db A.id form.id = 0)
    (hf0 : fCount db A.id form.id = 0)
    (hff : faultFree db = true) :
    FollowCreate db A form =
      ⟨.ok (relationshipGet (dbAfterPut db (builtFR db A form)) A form.id),
       dbAfterPut db (builtFR db A form), [createMsg db A form t]⟩ ∧
    frCount (dbAfterPut db (builtFR db A form)) A.id form.id = 1 ∧
    fCount (dbAfterPut db (builtFR db A form)) A.id form.id = 0 ∧
    (relationshipGet (dbAfterPut db (builtFR db A form)) A form.id).requested
      = true ∧
    (relationshipGet (dbAfterPut db (builtFR db A form)) A form.id).following
      = false ∧
    (createMsg db A form t).apObjectType = activityFollow ∧
    (createMsg db A form t).apActivityType = activityCreate ∧
    (createMsg db A form t).gtsModel = .followRequest (builtFR db A form) := by
  have hcond : (!b && (t.domain == "")) = false := by
    rcases hmanual with h | h
    · have hd : (t.domain == "") = false := beq_eq_false_iff_ne.mpr h
      simp [hd]
    · simp [h]
  refine ⟨followCreate_manual_run db A t form b hacct hne hlock hcond hnb hfr0
      hf0 hff,
    frCount_afterPut db A form hfr0, ?_, ?_, ?_, rfl, rfl, rfl⟩
  · rw [fCount_afterPut]
    exact hf0
  · simp [relationshipGet, getFollowRequestWhere_afterPut db A form hfr0]
  · simp [relationshipGet, getFollowWhere_afterPut,
      getFollowWhere_eq_none hf0]

theorem followCreate_manualAccept_witness :
    FollowCreate dbRemote acctA formB =
      ⟨.ok (relationshipGet (dbAfterPut dbRemote (builtFR dbRemote acctA formB))
          acctA "B"),
       dbAfterPut dbRemote (builtFR dbRemote acctA formB),
       [createMsg dbRemote acctA formB acctBremote]⟩ ∧
    frCount (dbAfterPut dbRemote (builtFR dbRemote acctA formB)) "A" "B" = 1 ∧
    fCount (dbAfterPut dbRemote (builtFR dbRemote acctA formB)) "A" "B" = 0 ∧
    (relationshipGet (dbAfterPut dbRemote (builtFR dbRemote acctA formB))
        acctA "B").requested = true ∧
    (relationshipGet (dbAfterPut dbRemote (builtFR dbRemote acctA formB))
        acctA "B").following = false ∧
    (createMsg dbRemote acctA formB acctBremote).apObjectType = activityFollow ∧
    (createMsg dbRemote acctA formB acctBremote).apActivityType
      = activityCreate ∧
    (createMsg dbRemote acctA formB acctBremote).gtsModel
      = .followRequest (builtFR dbRemote acctA formB) := by
  exact followCreate_manualAccept dbRemote acctA acctBremote formB true
    (by decide) (by decide) rfl (Or.inr rfl) (by decide) (by decide) (by decide)
    (by decide)

/-- C4: for a distinct unblocked pair with no prior relationship records,
running FollowCreate twice in sequence leaves exactly one Follow or
FollowRequest record for the pair; the second call changes no state,
enqueues no dispatch message, and returns the same outcome (hence the same
relationship snapshot) as the first, which succeeded. -/
theorem followCreate_idempotent (db : DB) (A t : Account)
    (form : AccountFollowRequest) (b : Bool)
    (hacct : getAccountByID db form.id = some t)
    (hne : A.id ≠ form.id)
    (hlock : t.locked = some b)
    (hnb : isBlocked db A.id form.id = false)
    (hfr0 : frCount db A.id form.id = 0)
    (hf0 : fCount db A.id form.id = 0)
    (hff : faultFree db = true) :
    frCount (FollowCreate db A form).db A.id form.id +
      fCount (FollowCreate db A form).db A.id form.id = 1 ∧
    FollowCreate (FollowCreate db A form).db A form =
      ⟨(FollowCreate db A form).outcome, (FollowCreate db A form).db, []⟩ ∧
    (∃ rel, (FollowCreate db A form).outcome = .ok rel) := by
  obtain ⟨h1, h2, h3, h4, -⟩ := faultFree_iff.mp hff
  have htid : t.id = form.id := getAccountByID_id hacct
  have hf0t : fCount db A.id t.id = 0 := by rw [htid]; exact hf0
  by_cases hauto : (!b && (t.domain == "")) = true
  · have hb : b = false := by revert hauto; cases b <;> simp
    have hdom : t.domain = "" := by
      rw [hb] at hauto
      simpa using hauto
    have hrun := followCreate_auto_run db A t form hacct hne hdom
      (hb ▸ hlock) hnb hfr0 hf0 hff
    refine ⟨?_, ?_, ?_⟩
    · rw [hrun]
      show frCount (dbAfterAutoAccept db A form) A.id form.id +
        fCount (dbAfterAutoAccept db A form) A.id form.id = 1
      rw [frCount_afterAutoAccept db A form hfr0,
        fCount_afterAutoAccept db A form hf0]
    · rw [hrun]
      show FollowCreate (dbAfterAutoAccept db A form) A form =
        ⟨.ok (relationshipGet (dbAfterAutoAccept db A form) A form.id),
         dbAfterAutoAccept db A form, []⟩
      exact followCreate_short_following (dbAfterAutoAccept db A form) A t form
        h1 h2 h3 hnb hacct (isFollowing_afterAutoAccept db A t form htid)
    · rw [hrun]
      exact ⟨_, rfl⟩
  · have hcond : (!b && (t.domain == "")) = false := by
      revert hauto
      cases (!b && (t.domain == "")) <;> simp
    have hrun := followCreate_manual_run db A t form b hacct hne hlock hcond
      hnb hfr0 hf0 hff
    refine ⟨?_, ?_, ?_⟩
    · rw [hrun]
      show frCount (dbAfterPut db (builtFR db A form)) A.id form.id +
        fCount (dbAfterPut db (builtFR db A form)) A.id form.id = 1
      rw [frCount_afterPut db A form hfr0, fCount_afterPut, hf0]
    · rw [hrun]
      show FollowCreate (dbAfterPut db (builtFR db A form)) A form =
        ⟨.ok (relationshipGet (dbAfterPut db (builtFR db A form)) A form.id),
         dbAfterPut db (builtFR db A form), []⟩
      exact followCreate_short_requested (dbAfterPut db (builtFR db A form))
        A t form h1 h2 h3 h4 hnb hacct (isFollowing_eq_false hf0t)
        (isFollowRequested_afterPut db A t form htid)
    · rw [hrun]
      exact ⟨_, rfl⟩

theorem followCreate_idempotent_witness :
    frCount (FollowCreate dbRemote acctA formB).db "A" "B" +
      fCount (FollowCreate dbRemote acctA formB).db "A" "B" = 1 ∧
    FollowCreate (FollowCreate dbRemote acctA formB).db acctA formB =
      ⟨(FollowCreate dbRemote acctA formB).outcome,
       (FollowCreate dbRemote acctA formB).db, []⟩ ∧
    (∃ rel, (FollowCreate dbRemote acctA formB).outcome = .ok rel) := by
  exact followCreate_idempotent dbRemote acctA acctBremote formB true
    (by decide) (by decide) rfl (by decide) (by decide) (by decide) (by decide)

/-- C8: in a fault-free FollowRemove run with the target account present,
the two deletion branches are checked independently: the run ends in the
post-deletion state and enqueues exactly the undo messages of `undoList` —
one Undo/Follow message per record that existed, carrying the requester id,
target id and the URI captured from the deleted record — so two messages
when both records existed and zero when neither did. -/
theorem followRemove_undo_dispatch (db : DB) (A : Account) (tid : String)
    (t : Account)
    (hblk : db.isBlockedErr = false)
    (hnb : isBlocked db A.id tid = false)
    (hga : db.getAccountErr = false)
    (hacct : getAccountByID db tid = some t)
    (hfrE : db.getWhereFrErr = false)
    (hfE : db.getWhereFErr = false)
    (hdfr : db.deleteFrErr = false)
    (hdf : db.deleteFErr = false) :
    FollowRemove db A tid =
      ⟨.ok (relationshipGet (dbRemove2 db A tid) A tid), dbRemove2 db A tid,
       undoList db A tid (some t)⟩ ∧
    ((getFollowRequestWhere db A.id tid).isSome →
      (getFollowWhere db A.id tid).isSome →
      (undoList db A tid (some t)).length = 2) ∧
    (getFollowRequestWhere db A.id tid = none →
      getFollowWhere db A.id tid = none →
      undoList db A tid (some t) = []) := by
  refine ⟨?_, ?_, ?_⟩
  · rw [FollowRemove]
    cases hfr : getFollowRequestWhere db A.id tid <;>
      cases hf : getFollowWhere db A.id tid <;>
      simp [hblk, hnb, hga, hacct, hfrE, hfE, hdfr, hdf, hfr, hf,
        followRemoveFollowBranch, followRemoveMsgs, getFollowWhere_deleteFr,
        deleteFr_getWhereFErr, deleteFr_deleteFErr, dbRemove1, dbRemove2,
        undoList]
  · intro h1 h2
    cases hfr : getFollowRequestWhere db A.id tid with
    | none => rw [hfr] at h1; simp at h1
    | some fr =>
      cases hf : getFollowWhere db A.id tid with
      | none => rw [hf] at h2; simp at h2
      | some f => simp [undoList, hfr, hf]
  · intro h1 h2
    simp [undoList, h1, h2]

theorem followRemove_undo_dispatch_witness :
    (FollowRemove dbBoth acctA "B" =
      ⟨.ok (relationshipGet (dbRemove2 dbBoth acctA "B") acctA "B"),
       dbRemove2 dbBoth acctA "B", undoList dbBoth acctA "B" (some acctB)⟩ ∧
    ((getFollowRequestWhere dbBoth "A" "B").isSome →
      (getFollowWhere dbBoth "A" "B").isSome →
      (undoList dbBoth acctA "B" (some acctB)).length = 2) ∧
    (getFollowRequestWhere dbBoth "A" "B" = none →
      getFollowWhere dbBoth "A" "B" = none →
      undoList dbBoth acctA "B" (some acctB) = [])) ∧
    (undoList dbBoth acctA "B" (some acctB)).length = 2 := by
  refine ⟨?_, by decide⟩
  exact followRemove_undo_dispatch dbBoth acctA "B" acctB rfl (by decide) rfl
    (by decide) rfl rfl rfl rfl

/-- C2 fails as stated: with the target account absent from the store and a
dangling follow request present, FollowRemove aborts with NotFound — it
does not continue, the request is not deleted, and no snapshot is
returned. -/
theorem followRemove_missingTarget_cex :
    frCount dbC2 "A" "B" = 1 ∧
    FollowRemove dbC2 acctA "B" = ⟨.err .notFound, dbC2, []⟩ := by
  decide

/-- C2 (amended): in FollowRemove, a target-account lookup that fails with
a no-entries error aborts the operation with NotFound and performs no
deletion; it is a lookup failing with any other repository error that is
non-fatal — the operation continues with a nil target reference, performs
the deletions, and returns the post-mutation snapshot. -/
theorem followRemove_targetLookup :
    (∀ (db : DB) (A : Account) (tid : String),
      db.isBlockedErr = false → isBlocked db A.id tid = false →
      db.getAccountErr = false → getAccountByID db tid = none →
      FollowRemove db A tid = ⟨.err .notFound, db, []⟩) ∧
    (∀ (db : DB) (A : Account) (tid : String) (fr : FollowRequest),
      db.isBlockedErr = false → isBlocked db A.id tid = false →
      db.getAccountErr = true →
      db.getWhereFrErr = false → db.deleteFrErr = false →
      getFollowRequestWhere db A.id tid = some fr →
      db.getWhereFErr = false → getFollowWhere db A.id tid = none →
      FollowRemove db A tid =
        ⟨.ok (relationshipGet (deleteFollowRequestByID db fr.id) A tid),
         deleteFollowRequestByID db fr.id, [undoMsg A tid fr.uri none]⟩) := by
  constructor
  · intro db A tid hblk hnb hga hnone
    rw [FollowRemove]
    simp [hblk, hnb, hga, hnone]
  · intro db A tid fr hblk hnb hga hfrE hdfr hfr hfE hf
    rw [FollowRemove]
    simp [hblk, hnb, hga, hfrE, hdfr, hfr, hfE, hf,
      followRemoveFollowBranch, followRemoveMsgs, getFollowWhere_deleteFr,
      deleteFr_getWhereFErr]

theorem followRemove_targetLookup_witness :
    (FollowRemove dbC2 acctA "B" = ⟨.err .notFound, dbC2, []⟩) ∧
    (FollowRemove dbC2err acctA "B" =
      ⟨.ok (relationshipGet (deleteFollowRequestByID dbC2err frAB.id) acctA "B"),
       deleteFollowRequestByID dbC2err frAB.id,
       [undoMsg acctA "B" frAB.uri none]⟩) := by
  constructor
  · exact followRemove_targetLookup.1 dbC2 acctA "B" rfl (by decide) rfl
      (by decide)
  · exact followRemove_targetLookup.2 dbC2err acctA "B" frAB rfl (by decide)
      rfl rfl rfl (by decide) rfl (by decide)

/-- C9 fails as stated: with an existing follow request whose GetWhere
lookup fails with a repository error, FollowRemove does not surface the
error — it returns the snapshot as success, skips the deletion (the
repository is unchanged) and enqueues nothing. -/
theorem followRemove_lookupError_swallowed_cex :
    frCount dbC9 "A" "B" = 1 ∧
    FollowRemove dbC9 acctA "B" =
      ⟨.ok (relationshipGet dbC9 acctA "B"), dbC9, []⟩ ∧
    Outcome.ok (relationshipGet dbC9 acctA "B") ≠ .err .internalError := by
  decide

/-- C9 (amended): repository errors from the two GetWhere lookups in
FollowRemove are swallowed — the corresponding branch is skipped exactly as
if the record were absent, with no deletion and no Undo dispatch — while a
failing deletion of a found record is surfaced immediately as an Internal
error. -/
theorem followRemove_lookupError_policy :
    (∀ (db : DB) (A : Account) (tid : String) (t : Account) (fr : FollowRequest),
      db.isBlockedErr = false → isBlocked db A.id tid = false →
      db.getAccountErr = false → getAccountByID db tid = some t →
      db.getWhereFrErr = true →
      getFollowRequestWhere db A.id tid = some fr →
      db.getWhereFErr = false → getFollowWhere db A.id tid = none →
      FollowRemove db A tid = ⟨.ok (relationshipGet db A tid), db, []⟩) ∧
    (∀ (db : DB) (A : Account) (tid : String) (t : Account) (f : Follow),
      db.isBlockedErr = false → isBlocked db A.id tid = false →
      db.getAccountErr = false → getAccountByID db tid = some t →
      db.getWhereFrErr = false →
      getFollowRequestWhere db A.id tid = none →
      db.getWhereFErr = true → getFollowWhere db A.id tid = some f →
      FollowRemove db A tid = ⟨.ok (relationshipGet db A tid), db, []⟩) ∧
    (∀ (db : DB) (A : Account) (tid : String) (t : Account) (fr : FollowRequest),
      db.isBlockedErr = false → isBlocked db A.id tid = false →
      db.getAccountErr = false → getAccountByID db tid = some t →
      db.getWhereFrErr = false →
      getFollowRequestWhere db A.id tid = some fr →
      db.deleteFrErr = true →
      FollowRemove db A tid = ⟨.err .internalError, db, []⟩) := by
  refine ⟨?_, ?_, ?_⟩
  · intro db A tid t fr hblk hnb hga hacct hfrE hfr hfE hf
    rw [FollowRemove]
    simp [hblk, hnb, hga, hacct, hfrE, hfE, hf,
      followRemoveFollowBranch, followRemoveMsgs]
  · intro db A tid t f hblk hnb hga hacct hfrE hfr hfE hf
    rw [FollowRemove]
    simp [hblk, hnb, hga, hacct, hfrE, hfr, hfE,
      followRemoveFollowBranch, followRemoveMsgs]
  · intro db A tid t fr hblk hnb hga hacct hfrE hfr hdfr
    rw [FollowRemove]
    simp [hblk, hnb, hga, hacct, hfrE, hfr, hdfr]

theorem followRemove_lookupError_policy_witness :
    (FollowRemove dbC9 acctA "B" =
      ⟨.ok (relationshipGet dbC9 acctA "B"), dbC9, []⟩) ∧
    (FollowRemove dbC9b acctA "B" =
      ⟨.ok (relationshipGet dbC9b acctA "B"), dbC9b, []⟩) ∧
    (FollowRemove dbC9c acctA "B" = ⟨.err .internalError, dbC9c, []⟩) := by
  refine ⟨?_, ?_, ?_⟩
  · exact followRemove_lookupError_policy.1 dbC9 acctA "B" acctB frAB rfl
      (by decide) rfl (by decide) rfl (by decide) rfl (by decide)
  · exact followRemove_lookupError_policy.2.1 dbC9b acctA "B" acctB fAB rfl
      (by decide) rfl (by decide) rfl (by decide) rfl (by decide)
  · exact followRemove_lookupError_policy.2.2 dbC9c acctA "B" acctB frAB rfl
      (by decide) rfl (by decide) rfl (by decide) rfl

end GtsFollow
